import Mathlib

set_option linter.unusedVariables false

/-!
Verification development for `src/transaction-collection.js`.

Shallow embedding conventions:
* Dates are whole-day granularity throughout (grouping in the source rounds
  every timestamp to a calendar day), so a date is an integer day number
  relative to the Unix epoch; JS `null`/`undefined` dates and numbers are
  `none`.
* JS numbers are modelled as rationals; JS arithmetic coerces `null` to `0`,
  captured by `jsNum`/`jsDay`.
* JS object identity (`===` on the mutable `bounds` object) is modelled by an
  explicit `id` field: in-place mutation keeps the id, a new object gets a
  fresh id.
* UUID generation is a pluggable capability ("produce a unique string"); each
  construction site takes the freshly drawn string as an argument.
-/

/-- JS numeric coercion of a possibly-null number (`null` coerces to `0`). -/
def jsNum (o : Option ℚ) : ℚ := o.getD 0

/-- JS numeric coercion of a possibly-null date inside comparisons and
arithmetic (`null` coerces to `0`, a `Date` to its timestamp; we use day
numbers).  Only meaningful where the source supplies an actual date or
`null`, which is the case at every point our theorems exercise. -/
def jsDay (o : Option ℤ) : ℤ := o.getD 0

/-- A plain definition object ("blob") passed to the `Transaction`
constructor.  Absent fields are `none`. -/
structure Blob where
  growth : Option ℚ := none
  description : Option String := none
  amount : Option ℚ := none
  startDate : Option ℤ := none
  endDate : Option ℤ := none
  frequency : Option String := none
  transactionType : Option String := none
  series : Option String := none
deriving Repr, DecidableEq, Inhabited

/-- `blob.f ? blob.f : null` for a numeric field: a present `0` is falsy in
JS and coerces to the default exactly like an absent field. -/
def truthyNum (o : Option ℚ) : Option ℚ :=
  match o with
  | some q => if q = 0 then none else some q
  | none => none

/-- `blob.f ? blob.f : dflt` for a string field: the empty string is falsy. -/
def truthyStr (o : Option String) (dflt : String) : String :=
  match o with
  | some s => if s = "" then dflt else s
  | none => dflt

/-- `blob.description ? blob.description : null`. -/
def truthyStrOpt (o : Option String) : Option String :=
  match o with
  | some s => if s = "" then none else some s
  | none => none

/-- A concrete expanded occurrence.  `_.clone(txn)` (line 345) produces a
flat copy of the node; only these scalar fields of an occurrence are ever
read downstream (grouping by `startDate`, summing `amount`, filtering by
`series`), so the occurrence view is this flat record. -/
structure Occur where
  growth : Option ℚ
  description : Option String
  amount : Option ℚ
  startDate : Option ℤ
  endDate : Option ℤ
  frequency : String
  transactionType : String
  series : String
deriving Repr, DecidableEq, Inhabited

/-- The memo stash `this.transactionSeries` (lines 361-368).  The source
compares the stashed `bounds` with `===` (object identity), modelled by
`boundsId`; the stashed `startDate` is also compared with `===`, which for an
unchanged `Date` reference coincides with value equality (no theorem below
swaps a date object for an equal-valued fresh one). -/
structure SeriesCache where
  txns : List Occur
  amount : Option ℚ
  growth : Option ℚ
  frequency : String
  startDate : Option ℤ
  boundsId : ℕ
deriving Repr, DecidableEq, Inhabited

/-- The scalar state of one transaction node (constructor lines 46-158).
`parentTransaction` is represented implicitly by the node's position in the
tree; `scenarios` and the transient `accumulator` are handled at their use
sites. -/
structure TxData where
  depth : ℤ
  growth : Option ℚ
  description : Option String
  amount : Option ℚ
  startDate : Option ℤ
  endDate : Option ℤ
  frequency : String
  transactionType : String
  series : String
  transactionSeries : Option SeriesCache
deriving Repr, DecidableEq, Inhabited

/-- A transaction tree node: scalar data plus owned children. -/
inductive Transaction where
  | node (data : TxData) (children : List Transaction)

instance : Inhabited Transaction := ⟨.node default []⟩

def Transaction.data : Transaction → TxData
  | .node d _ => d

def Transaction.children : Transaction → List Transaction
  | .node _ cs => cs

/-- A bounds object `{startDate, endDate}` (lines 14-30).  `id` models the
JS object identity used by the memo check. -/
structure Bounds where
  id : ℕ
  startDate : Option ℤ
  endDate : Option ℤ
deriving Repr, DecidableEq, Inhabited

/-- `new Transaction(blob)` (lines 46-158).  `freshId` is the UUID drawn when
`blob.series` is absent or falsy.  Every falsy present field coerces to its
default (`0` amounts and growths to `null`, empty strings to their
defaults); `depth` starts at `-1`; `children`, `scenarios` and the
accumulator start empty; no memo stash exists yet. -/
def mkTransaction (freshId : String) (blob : Blob) : Transaction :=
  .node
    { depth := -1
      growth := truthyNum blob.growth
      description := truthyStrOpt blob.description
      amount := truthyNum blob.amount
      startDate := blob.startDate
      endDate := blob.endDate
      frequency := truthyStr blob.frequency "none"
      transactionType := truthyStr blob.transactionType "plain"
      series := truthyStr blob.series freshId
      transactionSeries := none } []

mutual
/-- `Transaction.prototype.getAmount` (lines 265-272): with children, the
node's `amount` is rewritten to the sum of the children's `getAmount()`
results (each child resolved, and rewritten, in place, `null` summing as 0)
and that sum is returned; without children the stored amount is returned
unchanged.  The pair is (updated node, returned value). -/
def getAmountRun : Transaction → Transaction × Option ℚ
  | .node d cs =>
    if cs.isEmpty then (.node d cs, d.amount)
    else
      let rs := getAmountList cs
      let s : ℚ := (rs.map (fun r => jsNum r.2)).sum
      (.node { d with amount := some s } (rs.map Prod.fst), some s)
termination_by structural t => t

/-- `_.sum(this.children, c => c.getAmount())`: resolve each child in order. -/
def getAmountList : List Transaction → List (Transaction × Option ℚ)
  | [] => []
  | c :: cs => getAmountRun c :: getAmountList cs
termination_by structural l => l
end

/-- `Transaction.prototype.setAmount()` exactly as `addChild` invokes it —
with no argument (lines 247-259).  With children, `amount` becomes the sum
of the children's `getAmount()`; without children it becomes the
`undefined` argument.  The final upward step reads `this.parent`, a field
this codebase never assigns (the declared back-reference is
`parentTransaction`), so the upward recursion never fires and ancestors are
left untouched; the function therefore only rewrites this node (and, through
`getAmount`, its descendants). -/
def setAmountNoArg : Transaction → Transaction
  | .node d cs =>
    if cs.isEmpty then .node { d with amount := none } cs
    else
      let rs := getAmountList cs
      let s : ℚ := (rs.map (fun r => jsNum r.2)).sum
      .node { d with amount := some s } (rs.map Prod.fst)

/-- `Transaction.prototype.addChild(blob)` (lines 182-194) acting on this
node.  The guard `blob.constructor !== 'Transaction'` compares a constructor
function against the string `'Transaction'` and is therefore always true, so
the argument is always wrapped by the `Transaction` constructor.  The new
child gets `depth = this.depth + 1` (its parent back-reference is its
position in the tree), is appended to `children`, and `setAmount()` runs on
this node. -/
def addChildHere (t : Transaction) (freshId : String) (blob : Blob) : Transaction :=
  match t with
  | .node d cs =>
    let c := mkTransaction freshId blob
    let c2 : Transaction := .node { c.data with depth := d.depth + 1 } c.children
    setAmountNoArg (.node d (cs ++ [c2]))

/-- The blob that `addChild` effectively reads off an existing node when it
re-wraps it with `new Transaction(node)` (the always-true constructor
guard): all scalar fields are picked up, the children are not. -/
def blobOfTransaction (t : Transaction) : Blob :=
  { growth := t.data.growth
    description := t.data.description
    amount := t.data.amount
    startDate := t.data.startDate
    endDate := t.data.endDate
    frequency := some t.data.frequency
    transactionType := some t.data.transactionType
    series := some t.data.series }

/-- `addChild` applied to an already-constructed `Transaction` (as
`cloneTransactionToScenario` does): the always-true guard re-wraps it. -/
def addChildTransactionHere (t : Transaction) (freshId : String) (child : Transaction) : Transaction :=
  addChildHere t freshId (blobOfTransaction child)

mutual
/-- `addChild` invoked on the node at the given child-index path inside a
tree (the caller holds a reference to an interior node and calls `addChild`
on it); per `setAmount`'s dead `this.parent` branch, nodes outside that
subtree are untouched. -/
def addChildAt : Transaction → List ℕ → String → Blob → Transaction
  | t, [], freshId, blob => addChildHere t freshId blob
  | .node d cs, i :: p, freshId, blob => .node d (addChildAtList cs i p freshId blob)
termination_by structural t _ _ _ => t

def addChildAtList : List Transaction → ℕ → List ℕ → String → Blob → List Transaction
  | [], _, _, _, _ => []
  | c :: cs, 0, p, freshId, blob => addChildAt c p freshId blob :: cs
  | c :: cs, Nat.succ i, p, freshId, blob => c :: addChildAtList cs i p freshId blob
termination_by structural l _ _ _ _ => l
end

/-! ### Date series generation (`generateRepeatDates`, lines 381-405)

`moment`'s calendar arithmetic at day granularity: day numbers are days
since 1970-01-01, converted to and from Gregorian civil dates with the
standard era-based algorithms (Lean's `Int` division is floor division for
our positive divisors, which is exactly what the algorithms need). -/

def isLeap (y : ℤ) : Bool := y % 4 = 0 && (y % 100 ≠ 0 || y % 400 = 0)

def daysInMonth (y m : ℤ) : ℤ :=
  if m = 2 then (if isLeap y then 29 else 28)
  else if m = 4 || m = 6 || m = 9 || m = 11 then 30
  else 31

/-- Gregorian (year, month, day) of a day number. -/
def civilFromDays (z0 : ℤ) : ℤ × ℤ × ℤ :=
  let z := z0 + 719468
  let era := z / 146097
  let doe := z - era * 146097
  let yoe := (doe - doe / 1460 + doe / 36524 - doe / 146096) / 365
  let y := yoe + era * 400
  let doy := doe - (365 * yoe + yoe / 4 - yoe / 100)
  let mp := (5 * doy + 2) / 153
  let d := doy - (153 * mp + 2) / 5 + 1
  let m := mp + (if mp < 10 then 3 else -9)
  (y + (if m ≤ 2 then 1 else 0), m, d)

/-- Day number of a Gregorian (year, month, day). -/
def daysFromCivil (y m d : ℤ) : ℤ :=
  let y2 := y - (if m ≤ 2 then 1 else 0)
  let era := y2 / 400
  let yoe := y2 - era * 400
  let mp := m + (if m > 2 then -3 else 9)
  let doy := (153 * mp + 2) / 5 + d - 1
  let doe := yoe * 365 + yoe / 4 - yoe / 100 + doy
  era * 146097 + doe - 719468

/-- `moment.add(1, 'months')`: advance one calendar month, clamping the
day-of-month to the length of the target month. -/
def addOneMonth (day : ℤ) : ℤ :=
  let c := civilFromDays day
  let y := c.1
  let m := c.2.1
  let d := c.2.2
  let y2 := if m = 12 then y + 1 else y
  let m2 := if m = 12 then 1 else m + 1
  daysFromCivil y2 m2 (min d (daysInMonth y2 m2))

/-- `moment().range(start, end).by('months', ...)`: push the running moment
and add one month in place while it is at or before the end (so a clamped
day-of-month stays clamped).  The fuel only bounds the recursion for Lean:
one month always advances the running day by at least 28, so `stop - start
+ 2` iterations are never exhausted. -/
def monthDatesGo : ℕ → ℤ → ℤ → List ℤ
  | 0, _, _ => []
  | Nat.succ fuel, cur, stop =>
    if cur ≤ stop then cur :: monthDatesGo fuel (addOneMonth cur) stop else []

def monthDates (start stop : ℤ) : List ℤ :=
  monthDatesGo ((stop - start).toNat + 2) start stop

/-- `moment().range(start, end).by(step, ...)` for a fixed day step (7 for
`'weeks'`, 14 for the two-week range object, 1 for `'days'`): push the
running moment and advance it by the step while it is at or before the end.
As with `monthDatesGo`, the fuel only serves Lean's termination: the step is
at least one day, so `stop - start + 2` iterations are never exhausted. -/
def stepDatesGo (stepLen : ℤ) : ℕ → ℤ → ℤ → List ℤ
  | 0, _, _ => []
  | Nat.succ fuel, cur, stop =>
    if cur ≤ stop then cur :: stepDatesGo stepLen fuel (cur + stepLen) stop else []

def stepDates (stepLen start stop : ℤ) : List ℤ :=
  stepDatesGo stepLen ((stop - start).toNat + 2) start stop

/-- `Transaction.prototype.generateRepeatDates` (lines 381-405): throw for a
frequency outside the five known strings; `'none'` passes the check, matches
no branch, and yields the empty accumulator. -/
def generateRepeatDates (frequency : String) (start stop : ℤ) : Except String (List ℤ) :=
  if (["none", "month", "week", "biweek", "day"].contains frequency) = false then
    .error "Frequency must be none, day, week, biweek, or month."
  else if frequency = "month" then .ok (monthDates start stop)
  else if frequency = "week" then .ok (stepDates 7 start stop)
  else if frequency = "biweek" then .ok (stepDates 14 start stop)
  else if frequency = "day" then .ok (stepDates 1 start stop)
  else .ok []

/-! ### Recurrence expansion (`initRepeatTransactions`, lines 316-372) -/

/-- The occurrence view of a node: the fields of the (shallow) clone that
are consumed downstream. -/
def toOccur (d : TxData) : Occur :=
  { growth := d.growth
    description := d.description
    amount := d.amount
    startDate := d.startDate
    endDate := d.endDate
    frequency := d.frequency
    transactionType := d.transactionType
    series := d.series }

/-- The growth loop (lines 354-358): from the second occurrence on, each
amount is the previous occurrence's already-updated amount times the
multiplier (JS `null * m` is `0 * m`). -/
def growthGo (m : ℚ) (prev : Occur) : List Occur → List Occur
  | [] => []
  | o :: os =>
    let o2 := { o with amount := some (jsNum prev.amount * m) }
    o2 :: growthGo m o2 os

def growthApply (m : ℚ) : List Occur → List Occur
  | [] => []
  | o :: os => o :: growthGo m o os

/-- The uncached tail of `initRepeatTransactions`: generate the dates, clone
the definition per date (each clone one-shot: `frequency = 'none'`,
`endDate = null`, the definition's `series`), apply the growth loop unless
`growth` is the number `0` (the guard `txn.growth !== 0 || txn.growth`
is false only then — `null` growth passes and multiplies by `1 + 0/100`),
and stash the result with its fingerprint. -/
def initRepeatFresh (self : TxData) (bounds : Bounds) (start stop : ℤ) :
    Except String (TxData × (Occur ⊕ List Occur)) :=
  match generateRepeatDates self.frequency start stop with
  | .error e => .error e
  | .ok dates =>
    let clones := dates.map (fun dt =>
      { toOccur self with
          startDate := some dt
          endDate := none
          frequency := "none"
          series := self.series })
    let grown := if self.growth ≠ some 0 then
        growthApply (1 + jsNum self.growth / 100) clones
      else clones
    let stash : SeriesCache :=
      { txns := grown
        amount := self.amount
        growth := self.growth
        frequency := self.frequency
        startDate := self.startDate
        boundsId := bounds.id }
    .ok ({ self with transactionSeries := some stash }, .inr grown)

/-- `Transaction.prototype.initRepeatTransactions` (lines 316-372) with
`txn = this`, as at every call site in the repository.  A `'none'` frequency
returns the node itself at once (modelled by its occurrence view).  The end
date falls back to `bounds.endDate` when `txn.endDate` is null — the other
disjunct, `txn.endDate === 'Invalid Date'`, compares a `Date` object with a
string and is always false.  If a stash exists and the fingerprint
`{amount, growth, frequency, startDate, bounds}` matches (`bounds` by object
identity), the stashed list is returned verbatim with no recomputation. -/
def initRepeatTransactions (self : TxData) (bounds : Bounds) :
    Except String (TxData × (Occur ⊕ List Occur)) :=
  if self.frequency = "none" then .ok (self, .inl (toOccur self))
  else
    let start := jsDay self.startDate
    let stop := match self.endDate with
      | none => jsDay bounds.endDate
      | some e => e
    match self.transactionSeries with
    | some c =>
      if c.amount = self.amount ∧ c.growth = self.growth ∧
          c.frequency = self.frequency ∧ c.startDate = self.startDate ∧
          c.boundsId = bounds.id then
        .ok (self, .inr c.txns)
      else initRepeatFresh self bounds start stop
    | none => initRepeatFresh self bounds start stop

/-! ### Gathering (`gatherTransactions`, lines 279-308) -/

/-- `accumulator.concat(x)` accepts a single transaction or an array. -/
def occList : Occur ⊕ List Occur → List Occur
  | .inl o => [o]
  | .inr l => l

mutual
/-- `gatherTransactions` for a node that has a parent (lines 280-291): a
leaf expands itself into the parent's accumulator; a branch first recurses
into its children (filling, then discarding, its own accumulator) and then
expands itself as an aggregate into the parent's accumulator.  Returns the
node with its updated memo state together with the list this call appends
to the parent's accumulator. -/
def gatherChild (t : Transaction) (bounds : Bounds) :
    Except String (Transaction × List Occur) :=
  match t with
  | .node d cs =>
    if cs.isEmpty then
      match initRepeatTransactions d bounds with
      | .error e => .error e
      | .ok (d2, r) => .ok (.node d2 cs, occList r)
    else
      match gatherChildren cs bounds with
      | .error e => .error e
      | .ok (cs2, _intoOwnAccumulator) =>
        match initRepeatTransactions d bounds with
        | .error e => .error e
        | .ok (d2, r) => .ok (.node d2 cs2, occList r)
termination_by structural t

def gatherChildren (cs : List Transaction) (bounds : Bounds) :
    Except String (List Transaction × List Occur) :=
  match cs with
  | [] => .ok ([], [])
  | c :: rest =>
    match gatherChild c bounds with
    | .error e => .error e
    | .ok (c2, out) =>
      match gatherChildren rest bounds with
      | .error e => .error e
      | .ok (rest2, outs) => .ok (c2 :: rest2, out ++ outs)
termination_by structural cs
end

/-- Result of a top-level `gatherTransactions` call: the root case returns
the root's accumulator (an array); the childless "floater" case returns
either an expansion array or the node itself. -/
inductive GatherResult where
  | list (occs : List Occur)
  | selfNode (t : Transaction)

/-- `gatherTransactions` called on a node with no parent (the root and
floater cases, lines 292-307). -/
def gatherTransactions (t : Transaction) (bounds : Bounds) :
    Except String (Transaction × GatherResult) :=
  match t with
  | .node d cs =>
    if cs.isEmpty then
      if d.frequency ≠ "none" then
        match initRepeatTransactions d bounds with
        | .error e => .error e
        | .ok (d2, r) => .ok (.node d2 cs, .list (occList r))
      else .ok (.node d cs, .selfNode (.node d cs))
    else
      match gatherChildren cs bounds with
      | .error e => .error e
      | .ok (cs2, acc) => .ok (.node d cs2, .list acc)

/-! ### Day grouping (shared by `valueOnDate` and `generatePath`) -/

/-- lodash `groupBy` key order: first occurrence order of distinct keys. -/
def dedupFirst (l : List (Option ℤ)) : List (Option ℤ) :=
  l.foldl (fun acc x => if x ∈ acc then acc else acc ++ [x]) []

/-- lodash `sortBy(moment(key))`: ascending by day; an invalid key
(modelled `none`) sorts last as `NaN` does. -/
def keyLE (a b : Option ℤ) : Bool :=
  match a, b with
  | some x, some y => x ≤ y
  | some _, none => true
  | none, some _ => false
  | none, none => true

def insertKey (x : Option ℤ) : List (Option ℤ) → List (Option ℤ)
  | [] => [x]
  | y :: ys => if keyLE y x then y :: insertKey x ys else x :: y :: ys

def sortKeys : List (Option ℤ) → List (Option ℤ)
  | [] => []
  | x :: xs => insertKey x (sortKeys xs)

/-- Group the gathered occurrences by calendar day, sort the days
ascending, and sum each day's amounts (lines 416-432 / 529-545). -/
def dayGroups (gathered : List Occur) : List (Option ℤ × ℚ) :=
  (sortKeys (dedupFirst (gathered.map (fun o => o.startDate)))).map
    (fun k => (k, ((gathered.filter (fun o => o.startDate = k)).map
      (fun o => jsNum o.amount)).sum))

/-- `Transaction.prototype.valueOnDate(date, bounds)` (lines 413-438):
mutate `bounds.endDate` to `date` in place, gather, group by day, and sum
the per-day values (no occurrence is ever filtered by its own date).  The
floater branch hands lodash a bare object instead of an array; that
degenerate path is not modelled and no theorem exercises it. -/
def valueOnDate (t : Transaction) (date : Option ℤ) (bounds : Bounds) :
    Except String (Transaction × ℚ) :=
  let b2 : Bounds := { bounds with endDate := date }
  match gatherTransactions t b2 with
  | .error e => .error e
  | .ok (t2, .list occs) => .ok (t2, ((dayGroups occs).map Prod.snd).sum)
  | .ok (_, .selfNode _) => .error "unmodelled: lodash wrap of a non-array"

/-! ### Path generation and key points (lines 447-594) -/

structure PathPt where
  value : Option ℚ
  d : Option ℤ
  x : ℤ
  y : ℚ
deriving Repr, DecidableEq, Inhabited

structure KeyPt where
  count : ℕ
  x : ℤ
  date : ℤ
  value : ℚ
  type : String
deriving Repr, DecidableEq, Inhabited

structure KeyPts where
  inflectionPts : List KeyPt
  zeroPts : List KeyPt
deriving Repr, DecidableEq, Inhabited

structure PathResult where
  path : List PathPt
  keyPoints : Option KeyPts
deriving Repr, DecidableEq, Inhabited

/-- `Transaction.prototype.getInflectionPoints` (lines 460-482).  The source
builds a candidate point on every iteration, and its date is
`start.add(path[i-1].x, 'days')` — `moment#add` mutates `start`, so the
running date advances by each scanned point's `x` cumulatively; a flagged
point's date is the bounds start plus the sum of all `x` values scanned so
far, not the start plus its own `x`. -/
def getInflectionPoints (path : List PathPt) (bounds : Bounds) : List KeyPt :=
  (((List.range path.length).drop 2).foldl (fun (st : ℤ × List KeyPt) i =>
    let pm1 := path.getD (i - 1) default
    let pm2 := path.getD (i - 2) default
    let pcur := path.getD i default
    let deltaPrime := pcur.y - pm1.y
    let deltaDPrime := pm1.y - pm2.y
    let start2 := st.1 + pm1.x
    let point : KeyPt :=
      { count := i - 1, x := pm1.x, date := start2, value := pm1.y, type := "null" }
    if deltaPrime < 0 ∧ deltaDPrime > 0 then
      (start2, st.2 ++ [{ point with type := "max" }])
    else if deltaPrime > 0 ∧ deltaDPrime < 0 then
      (start2, st.2 ++ [{ point with type := "min" }])
    else (start2, st.2))
    (jsDay bounds.startDate, [])).2

/-- `Transaction.prototype.getZeroPoints` (lines 490-510): flag the point
after a sign crossing; the same mutating `start.add` drift applies. -/
def getZeroPoints (path : List PathPt) (bounds : Bounds) : List KeyPt :=
  (((List.range path.length).drop 2).foldl (fun (st : ℤ × List KeyPt) i =>
    let pm1 := path.getD (i - 1) default
    let pcur := path.getD i default
    let start2 := st.1 + pcur.x
    let point : KeyPt :=
      { count := i, x := pcur.x, date := start2, value := pcur.y, type := "null" }
    if pcur.y > 0 ∧ pm1.y < 0 then
      (start2, st.2 ++ [{ point with type := "positive" }])
    else if pcur.y < 0 ∧ pm1.y > 0 then
      (start2, st.2 ++ [{ point with type := "negative" }])
    else (start2, st.2))
    (jsDay bounds.startDate, [])).2

/-- `Transaction.prototype.getInflectionZeroPoints` (lines 447-452). -/
def getInflectionZeroPoints (path : List PathPt) (bounds : Bounds) : KeyPts :=
  { inflectionPts := getInflectionPoints path bounds
    zeroPts := getZeroPoints path bounds }

/-- `Transaction.prototype.generatePath` (lines 518-594) applied to an
already-gathered occurrence array: per-day sums, cumulative fold, trailing
pad point at `bounds.endDate` when the last day falls short of it, then the
left-edge clip/pad around `bounds.startDate`.  (The empty-input early
return carries `keyPoints: []`, an empty array rather than the usual
object; modelled as `none`.) -/
def generatePathGathered (gathered : List Occur) (bounds : Bounds) : PathResult :=
  if gathered.isEmpty then { path := [], keyPoints := none }
  else
    let txs0 := (dayGroups gathered).foldl (fun (acc : List PathPt) kv =>
      acc ++ [{ value := some (-1 * kv.2)
                d := kv.1
                x := jsDay kv.1 - jsDay bounds.startDate
                y := (match acc.getLast? with | some p => p.y | none => 0) + kv.2 }]) []
    let lastPt := (txs0.getLast?).getD default
    let txs1 := if jsDay lastPt.d < jsDay bounds.endDate then
        txs0 ++ [{ value := lastPt.value
                   d := bounds.endDate
                   x := jsDay bounds.endDate - jsDay bounds.startDate
                   y := lastPt.y }]
      else txs0
    let idx := txs1.findIdx? (fun p => decide (jsDay bounds.startDate ≤ jsDay p.d))
    let startValue : PathPt := match idx with
      | some i =>
        if 0 < i then
          { value := none, d := bounds.startDate, x := 0, y := (txs1.getD i default).y }
        else { value := none, d := bounds.startDate, x := 0, y := 0 }
      | none => { value := none, d := bounds.startDate, x := 0, y := 0 }
    let txs2 := match idx with
      | some i => if 0 < i then txs1.drop i else txs1
      | none => txs1
    let path := startValue :: txs2
    { path := path, keyPoints := some (getInflectionZeroPoints path bounds) }

/-- `generatePath(bounds)` with the tree gathering its own occurrences. -/
def generatePath (t : Transaction) (bounds : Bounds) :
    Except String (Transaction × PathResult) :=
  match gatherTransactions t bounds with
  | .error e => .error e
  | .ok (t2, .list occs) => .ok (t2, generatePathGathered occs bounds)
  | .ok (_, .selfNode _) => .error "unmodelled: lodash wrap of a non-array"

/-! ### Scenarios (lines 596-799) -/

/-- `Transaction.prototype.setStartDates(transaction, startDate, setall)`
(lines 602-621) as called with an explicit node.  With `setall` true only a
`startDate` before the new date is overwritten; with `setall` false or
absent the overwrite is unconditional.  The recursive call for children
passes `null` as `transaction`, and the body immediately dereferences
`transaction.startDate`, so any node with children makes the call throw a
`TypeError` (after this node's own date was already updated; the source's
mutation survives the throw, but no caller in the repository reaches this
case — `cloneTransactionToScenario` always passes a childless clone). -/
def setStartDatesTop (t : Transaction) (startDate : ℤ) (setall : Bool) :
    Except String Transaction :=
  match t with
  | .node d cs =>
    let d2 := if jsDay d.startDate < startDate ∧ setall then
        { d with startDate := some startDate }
      else if !setall then { d with startDate := some startDate }
      else d
    if cs.isEmpty then .ok (.node d2 cs)
    else .error "TypeError: cannot read property startDate of null"

/-- `Transaction.prototype.cloneTransaction` (lines 676-689): a fresh node
built from the scalar fields only — the children are never copied — then
`series` is fixed (`freshA` is the UUID the constructor draws because the
blob carries no `series`; `freshB` the one drawn when `newSeries` is
true) and the parent reference is divorced or kept.  `divorceParent` only
steers the dangling `parentTransaction` back-reference; in this tree model
the clone is attached to no tree either way, so the flag has no further
observable effect here. -/
def cloneTransaction (freshA freshB : String) (t : Transaction)
    (divorceParent newSeries : Bool) : Transaction :=
  let c := mkTransaction freshA
    { description := t.data.description
      amount := t.data.amount
      growth := t.data.growth
      frequency := some t.data.frequency
      startDate := t.data.startDate
      endDate := t.data.endDate }
  .node { c.data with series := if newSeries then freshB else t.data.series } c.children

/-- A `Scenario` (lines 702-719). -/
structure ScenarioS where
  name : String
  startDate : ℤ
  transactions : Transaction
  baseTransaction : Transaction
deriving Inhabited

/-- `Transaction.prototype.addScenario` plus the `Scenario` constructor
(lines 629-635 and 702-719).  The constructor computes the synthetic
starting balance with
`baseTransaction.valueOnDate({startDate: null, endDate: initEndDate}, initEndDate)`
— the arguments are in the wrong order for `valueOnDate(date, bounds)`, so
the "bounds" that reach the gather are the `initEndDate` Date (whose
`startDate`/`endDate` properties are undefined until `valueOnDate` writes
the blob, not a date, into `endDate`).  We model that garbled end date as
`none`; nodes with frequency `'none'` never read the bounds, and every
theorem below stays in that case.  The scenario root is built from the
blob `addScenario` assembles (JS string-concatenates a null description as
`"null"`), and the synthetic leaf is added via `addChild`. -/
def addScenario (freshRoot freshLeaf : String) (t : Transaction) (startDate : ℤ)
    (name : String) (priorScenarioCount : ℕ) : Except String ScenarioS :=
  let blob : Blob :=
    { description := some ((match t.data.description with
        | some s => s
        | none => "null") ++ " - Scenario" ++ toString (priorScenarioCount + 1))
      startDate := some startDate }
  match valueOnDate t none ⟨0, none, none⟩ with
  | .error e => .error e
  | .ok (t2, v) =>
    let leafBlob : Blob :=
      { description := some "Scenario Initial Amount"
        amount := some v
        frequency := some "none"
        startDate := some startDate
        growth := some 0 }
    .ok { name := name
          startDate := startDate
          transactions := addChildHere (mkTransaction freshRoot blob) freshLeaf leafBlob
          baseTransaction := t2 }

/-- `Scenario.prototype.cloneTransactionToScenario` (lines 725-733): clone
the node (`divorceParent = true`, `newSeries = false`), pull a
pre-scenario start date up to the scenario start (`setall = true`, so later
dates are kept), `addChild` the clone under the scenario root (which
re-wraps it), and return the root's last child. -/
def cloneTransactionToScenario (freshA freshB freshC : String) (s : ScenarioS)
    (transaction : Transaction) : Except String (ScenarioS × Transaction) :=
  let clone := cloneTransaction freshA freshB transaction true false
  match setStartDatesTop clone s.startDate true with
  | .error e => .error e
  | .ok clone2 =>
    let t2 := addChildTransactionHere s.transactions freshC clone2
    let added := (t2.children.getLast?).getD default
    .ok ({ s with transactions := t2 }, added)

/-! ### Concrete fixtures used by the theorems below -/

/-- Projection of an expansion result onto the produced occurrence list. -/
def occsOf (r : Except String (TxData × (Occur ⊕ List Occur))) : List Occur :=
  match r with
  | .ok (_, x) => occList x
  | .error _ => []

/-- Projection of an expansion result onto the node's updated data. -/
def dataOf (r : Except String (TxData × (Occur ⊕ List Occur))) : TxData :=
  match r with
  | .ok (d, _) => d
  | .error _ => default

/-- Projection of a top-level gather onto its occurrence list. -/
def gatherOccs (r : Except String (Transaction × GatherResult)) : List Occur :=
  match r with
  | .ok (_, .list l) => l
  | _ => []

/-- C1: a container, given one child worth 5. -/
def c1step1 : Transaction := addChildAt (mkTransaction "u0" {}) [] "u1" { amount := some 5 }

/-- C1: that child then itself receives a child worth 3 (`addChild` on the
interior node). -/
def c1step2 : Transaction := addChildAt c1step1 [0] "u2" { amount := some 3 }

/-- C2 witness: a leaf worth 2. -/
def c2leaf : Transaction := mkTransaction "w2" { amount := some 2 }

/-- C2 witness: branch data whose stored `amount` was mutated directly. -/
def c2data : TxData := { (mkTransaction "w9" {}).data with amount := some 99 }

/-- C3: a daily definition worth 10 starting day 0, no stash yet. -/
def c3node : TxData :=
  { depth := -1, growth := none, description := none, amount := some 10,
    startDate := some 0, endDate := none, frequency := "day",
    transactionType := "plain", series := "s3", transactionSeries := none }

/-- C3: a bounds object (identity 7) for days 0..2. -/
def c3bounds : Bounds := ⟨7, some 0, some 2⟩

/-- C3: the same bounds object after `bounds.endDate = date` mutated it in
place (same identity, new end). -/
def c3boundsMutated : Bounds := ⟨7, some 0, some 4⟩

def c3call1 : Except String (TxData × (Occur ⊕ List Occur)) :=
  initRepeatTransactions c3node c3bounds

def c3node1 : TxData := dataOf c3call1

def c3call2 : Except String (TxData × (Occur ⊕ List Occur)) :=
  initRepeatTransactions c3node1 c3boundsMutated

/-- C3: what an uncached expansion over the mutated window produces. -/
def c3freshCall : Except String (TxData × (Occur ⊕ List Occur)) :=
  initRepeatTransactions c3node c3boundsMutated

/-- C3: the stashed node with its `amount` changed. -/
def c3nodeNewAmount : TxData := { c3node1 with amount := some 99 }

def c3call3 : Except String (TxData × (Occur ⊕ List Occur)) :=
  initRepeatTransactions c3nodeNewAmount c3boundsMutated

/-- C4 witness: daily definition, amount 100, growth 10, days 0..2. -/
def c4node : TxData :=
  { depth := -1, growth := some 10, description := none, amount := some 100,
    startDate := some 0, endDate := some 2, frequency := "day",
    transactionType := "plain", series := "s4", transactionSeries := none }

def c4bounds : Bounds := ⟨3, some 0, some 30⟩

/-- C4 witness: the three occurrences the expansion is expected to produce
(amounts 100, 110, 121 on days 0, 1, 2). -/
def c4occA : Occur :=
  { growth := some 10, description := none, amount := some 100,
    startDate := some 0, endDate := none, frequency := "none",
    transactionType := "plain", series := "s4" }

def c4occB : Occur := { c4occA with amount := some 110, startDate := some 1 }

def c4occC : Occur := { c4occA with amount := some 121, startDate := some 2 }

def c4expected : List Occur := [c4occA, c4occB, c4occC]

/-- C4 witness: the node state after the expansion stashed its result. -/
def c4stash : SeriesCache :=
  { txns := c4expected, amount := some 100, growth := some 10,
    frequency := "day", startDate := some 0, boundsId := 3 }

def c4after : TxData := { c4node with transactionSeries := some c4stash }

/-- C5: a tree with a single one-time transaction worth 50 on day 5. -/
def c5tree : Transaction :=
  addChildHere (mkTransaction "r5" {}) "c5" { amount := some 50, startDate := some 5 }

def c5bounds : Bounds := ⟨1, some 0, some 10⟩

def c5result : PathResult :=
  match generatePath c5tree c5bounds with
  | .ok (_, r) => r
  | .error _ => default

/-- C6: a synthetic path rising to 5, dipping to -3, recovering to 4. -/
def c6path : List PathPt :=
  [ { value := none, d := none, x := 0, y := 0 },
    { value := none, d := none, x := 1, y := 5 },
    { value := none, d := none, x := 2, y := -3 },
    { value := none, d := none, x := 3, y := 4 } ]

def c6bounds : Bounds := ⟨2, some 0, some 3⟩

/-- C7: a base tree whose only transaction is one-time, worth 50, on day
20 — well after the scenario start (day 10). -/
def c7base : Transaction :=
  addChildHere (mkTransaction "b7" {}) "l7" { amount := some 50, startDate := some 20 }

def c7scen : ScenarioS :=
  match addScenario "r7" "i7" c7base 10 "what-if" 0 with
  | .ok s => s
  | .error _ => default

def c7syntheticLeaf : Transaction := c7scen.transactions.children.getD 0 default

def c7baseOccs : List Occur := gatherOccs (gatherTransactions c7base ⟨0, none, none⟩)

/-- C8: a scenario starting day 10 with an empty transactions root. -/
def c8scenarioBase : ScenarioS :=
  { name := "S", startDate := 10, transactions := mkTransaction "t8" {},
    baseTransaction := mkTransaction "b8" {} }

/-- C8: a subtree of two nodes whose root starts on day 15 (after the
scenario start) with series "sr". -/
def c8orig : Transaction :=
  addChildHere
    (mkTransaction "o8" { startDate := some 15, amount := some 7, series := some "sr" })
    "oc8" { amount := some 3, startDate := some 15 }

def c8added : Transaction :=
  match cloneTransactionToScenario "f1" "f2" "f3" c8scenarioBase c8orig with
  | .ok r => r.2
  | .error _ => default

/-! ### Helper lemmas -/

theorem getAmountList_eq_map (cs : List Transaction) :
    getAmountList cs = cs.map getAmountRun := by
  induction cs with
  | nil => simp [getAmountList]
  | cons c rest ih => simp [getAmountList, ih]

theorem getAmountList_append (l1 l2 : List Transaction) :
    getAmountList (l1 ++ l2) = getAmountList l1 ++ getAmountList l2 := by
  simp [getAmountList_eq_map]

theorem getAmountRun_leaf (d : TxData) :
    getAmountRun (.node d []) = (.node d [], d.amount) := by
  simp [getAmountRun]

/-! ### Claims -/

/-- C10: the `Transaction` constructor runs every present field through a JS
truthiness check, so a definition with `amount: 0` yields a node with
`amount = null` and `growth: 0` yields `growth = null`; a zero amount or
growth is indistinguishable from an absent field at the construction
interface. -/
theorem c10_constructor_coerces_falsy_fields (blob : Blob) (freshId : String) :
    (mkTransaction freshId { blob with amount := some 0 }).data.amount = none ∧
    (mkTransaction freshId { blob with growth := some 0 }).data.growth = none ∧
    mkTransaction freshId { blob with amount := some 0, growth := some 0 } =
      mkTransaction freshId { blob with amount := none, growth := none } := by
  refine ⟨by simp [mkTransaction, truthyNum, Transaction.data], by simp [mkTransaction, truthyNum, Transaction.data], ?_⟩
  simp [mkTransaction, truthyNum]

/-- C9: `generateRepeatDates` throws its frequency error exactly for a
frequency outside the five known strings, never errors for `day`, `week`,
`biweek` or `month`, and the value `none` never reaches it because
`initRepeatTransactions` returns the transaction itself first. -/
theorem c9_invalid_frequency_fails_fast (f : String) (s e : ℤ) :
    (f ∉ (["none", "month", "week", "biweek", "day"] : List String) →
      generateRepeatDates f s e =
        .error "Frequency must be none, day, week, biweek, or month.") ∧
    (f ∈ (["month", "week", "biweek", "day"] : List String) →
      (generateRepeatDates f s e).isOk = true) ∧
    (∀ d : TxData, d.frequency = "none" → ∀ b : Bounds,
      initRepeatTransactions d b = .ok (d, .inl (toOccur d))) := by
  refine ⟨?_, ?_, ?_⟩
  · intro h
    simp only [List.mem_cons, List.not_mem_nil, or_false, not_or] at h
    obtain ⟨h1, h2, h3, h4, h5⟩ := h
    simp [generateRepeatDates, h1, h2, h3, h4, h5]
  · intro h
    simp only [List.mem_cons, List.not_mem_nil, or_false] at h
    rcases h with rfl | rfl | rfl | rfl <;>
      simp [generateRepeatDates, Except.isOk, Except.toBool]
  · intro d hd b
    simp [initRepeatTransactions, hd]

/-- C9 witness: `yearly` is rejected with the frequency error and `month`
(days 0..40) succeeds. -/
theorem c9_invalid_frequency_fails_fast_witness :
    ("yearly" ∉ (["none", "month", "week", "biweek", "day"] : List String)) ∧
    generateRepeatDates "yearly" 0 40 =
      .error "Frequency must be none, day, week, biweek, or month." ∧
    ("month" ∈ (["month", "week", "biweek", "day"] : List String)) ∧
    (generateRepeatDates "month" 0 40).isOk = true := by
  refine ⟨by decide, (c9_invalid_frequency_fails_fast "yearly" 0 40).1 (by decide), by decide,
    (c9_invalid_frequency_fails_fast "month" 0 40).2.1 (by decide)⟩

/-- C6: the flagging logic of the key-point detectors is as claimed (max at
i-1 when the path turns down after rising, min symmetrically, crossings
flagged at the point after the sign flip), but a flagged point's date is
not `bounds.startDate + x` for its own `x`: `moment#add` mutates the
running start, so the min here lands on day 3 (= 1 + 2 cumulative) instead
of day 2, and the positive crossing on day 5 (= 2 + 3) instead of day 3. -/
theorem c6_keypoint_dates_drift :
    getInflectionPoints c6path c6bounds =
      [ { count := 1, x := 1, date := 1, value := 5, type := "max" },
        { count := 2, x := 2, date := 3, value := -3, type := "min" } ] ∧
    getZeroPoints c6path c6bounds =
      [ { count := 2, x := 2, date := 2, value := -3, type := "negative" },
        { count := 3, x := 3, date := 5, value := 4, type := "positive" } ] ∧
    ¬ (∀ p ∈ getInflectionPoints c6path c6bounds,
        p.date = jsDay c6bounds.startDate + p.x) ∧
    ¬ (∀ p ∈ getZeroPoints c6path c6bounds,
        p.date = jsDay c6bounds.startDate + p.x) := by
  have hi : getInflectionPoints c6path c6bounds =
      [ { count := 1, x := 1, date := 1, value := 5, type := "max" },
        { count := 2, x := 2, date := 3, value := -3, type := "min" } ] := by
    norm_num [getInflectionPoints, c6path, c6bounds, jsDay, List.range_succ]
  have hz : getZeroPoints c6path c6bounds =
      [ { count := 2, x := 2, date := 2, value := -3, type := "negative" },
        { count := 3, x := 3, date := 5, value := 4, type := "positive" } ] := by
    norm_num [getZeroPoints, c6path, c6bounds, jsDay, List.range_succ]
  refine ⟨hi, hz, ?_, ?_⟩
  · rw [hi]
    intro hall
    have h2 := hall { count := 2, x := 2, date := 3, value := -3, type := "min" } (by simp)
    simp [c6bounds, jsDay] at h2
  · rw [hz]
    intro hall
    have h2 := hall { count := 3, x := 3, date := 5, value := 4, type := "positive" } (by simp)
    simp [c6bounds, jsDay] at h2

/-- C3: the memo is not a transparent optimization.  With the stash in
place, mutating the same bounds object's `endDate` in place (as
`valueOnDate` does) still fingerprint-matches — `bounds` is compared by
object identity — so the second call returns the stale 3-occurrence list
verbatim while an uncached expansion over the mutated window yields 5
occurrences.  Changing `amount` does invalidate and recompute. -/
theorem c3_cache_stale_after_inplace_bounds_mutation :
    occsOf c3call2 = occsOf c3call1 ∧
    (occsOf c3call1).length = 3 ∧
    (occsOf c3freshCall).length = 5 ∧
    occsOf c3call2 ≠ occsOf c3freshCall ∧
    (occsOf c3call3).length = 5 := by
  refine ⟨?_, ?_, ?_, ?_, ?_⟩ <;>
    norm_num +decide [occsOf, dataOf, occList, c3call1, c3call2, c3call3, c3freshCall,
      c3node, c3node1, c3nodeNewAmount, c3bounds, c3boundsMutated,
      initRepeatTransactions, initRepeatFresh, generateRepeatDates, stepDates,
      stepDatesGo, growthApply, growthGo, toOccur, jsNum, jsDay]

/-- C1: `addChild` does set the new child's parent position, give it
`depth = parent.depth + 1`, append it, and rewrite the direct parent's
`amount` to the recursive sum — but the re-aggregation never propagates to
more distant ancestors, because `setAmount`'s upward step reads
`this.parent`, a field that is never assigned (the back-reference is named
`parentTransaction`).  Concretely: after giving the root a child worth 5
and then giving that child a child worth 3, the child's stored amount is 3
but the root still stores 5 while the recursive resolved sum is 3. -/
theorem c1_addChild_does_not_reaggregate_ancestors :
    c1step2.data.amount = some 5 ∧
    (getAmountRun c1step2).2 = some 3 ∧
    c1step2.data.amount ≠ (getAmountRun c1step2).2 ∧
    (c1step2.children.getD 0 default).data.amount = some 3 ∧
    (c1step2.children.getD 0 default).data.depth = 0 ∧
    ((c1step2.children.getD 0 default).children.getD 0 default).data.depth = 1 ∧
    ((c1step2.children.getD 0 default).children.getD 0 default).data.amount = some 3 := by
  refine ⟨?_, ?_, ?_, ?_, ?_, ?_, ?_⟩ <;>
    norm_num +decide [c1step2, c1step1, addChildAt, addChildAtList, addChildHere,
      setAmountNoArg, getAmountRun, getAmountList, mkTransaction, truthyNum,
      truthyStr, truthyStrOpt, jsNum, Transaction.data, Transaction.children]

/-- C2: `getAmount` returns the stored amount unchanged for a childless
node; for a node with children it returns the recursive sum of the
children's resolved amounts (whatever stale value `amount` held — `d`
is arbitrary here, covering direct mutation) and rewrites `amount` to that
sum, so the returned value equals the stored amount afterwards. -/
theorem c2_getAmount_resolves_and_rewrites (d : TxData) (cs : List Transaction) :
    (cs = [] → getAmountRun (.node d cs) = (.node d cs, d.amount)) ∧
    (cs ≠ [] →
      (getAmountRun (.node d cs)).2 =
        some ((cs.map (fun c => jsNum (getAmountRun c).2)).sum) ∧
      ((getAmountRun (.node d cs)).1).data.amount = (getAmountRun (.node d cs)).2) := by
  constructor
  · intro h
    subst h
    simp [getAmountRun]
  · intro h
    have hne : cs.isEmpty = false := by
      cases cs with
      | nil => exact absurd rfl h
      | cons a l => rfl
    constructor
    · simp only [getAmountRun, hne, Bool.false_eq_true, if_false, getAmountList_eq_map,
        List.map_map]
      rfl
    · simp [getAmountRun, hne, Transaction.data]

/-- C2 witness: a branch whose stored amount was mutated to 99 still
resolves to its single child's 2, and stores what it returns. -/
theorem c2_getAmount_resolves_and_rewrites_witness :
    ([c2leaf] ≠ ([] : List Transaction)) ∧
    ((getAmountRun (.node c2data [c2leaf])).2 =
      some (([c2leaf].map (fun c => jsNum (getAmountRun c).2)).sum) ∧
     ((getAmountRun (.node c2data [c2leaf])).1).data.amount =
      (getAmountRun (.node c2data [c2leaf])).2) :=
  ⟨by simp, (c2_getAmount_resolves_and_rewrites c2data [c2leaf]).2 (by simp)⟩

theorem growthGo_consecutive (m : ℚ) : ∀ (l : List Occur) (prev : Occur) (i : ℕ)
    (a b : Occur),
    (growthGo m prev l)[i + 1]? = some a → (growthGo m prev l)[i]? = some b →
    a.amount = some (jsNum b.amount * m) := by
  intro l
  induction l with
  | nil =>
    intro prev i a b ha hb
    simp [growthGo] at ha
  | cons o os ih =>
    intro prev i a b ha hb
    cases i with
    | zero =>
      simp only [growthGo, List.getElem?_cons_zero, Option.some.injEq] at hb
      cases os with
      | nil => simp [growthGo] at ha
      | cons p ps =>
        simp only [growthGo, List.getElem?_cons_succ, List.getElem?_cons_zero,
          Option.some.injEq] at ha
        subst ha
        subst hb
        rfl
    | succ j =>
      simp only [growthGo, List.getElem?_cons_succ] at ha hb
      exact ih _ j a b ha hb

theorem growthApply_consecutive (m : ℚ) (l : List Occur) (i : ℕ) (a b : Occur)
    (ha : (growthApply m l)[i + 1]? = some a) (hb : (growthApply m l)[i]? = some b) :
    a.amount = some (jsNum b.amount * m) := by
  cases l with
  | nil => simp [growthApply] at ha
  | cons o os =>
    cases i with
    | zero =>
      simp only [growthApply, List.getElem?_cons_zero, Option.some.injEq] at hb
      subst hb
      cases os with
      | nil => simp [growthApply, growthGo] at ha
      | cons p ps =>
        simp only [growthApply, growthGo, List.getElem?_cons_succ,
          List.getElem?_cons_zero, Option.some.injEq] at ha
        subst ha
        rfl
    | succ j =>
      simp only [growthApply, List.getElem?_cons_succ] at ha hb
      exact growthGo_consecutive m os o j a b ha hb

/-- C4: for a recurring definition with non-zero numeric growth `g` and no
prior stash, every occurrence after the first carries the previous
occurrence's already-grown amount times `(1 + g/100)` — compound growth on
the predecessor, not simple growth on the base. -/
theorem c4_growth_compounding (self : TxData) (b : Bounds) (g : ℚ) (self2 : TxData)
    (occs : List Occur) (i : ℕ) (a prevOcc : Occur)
    (hg : self.growth = some g) (hgz : g ≠ 0)
    (hfresh : self.transactionSeries = none)
    (h : initRepeatTransactions self b = .ok (self2, .inr occs))
    (ha : occs[i + 1]? = some a) (hb : occs[i]? = some prevOcc) :
    a.amount = some (jsNum prevOcc.amount * (1 + g / 100)) := by
  by_cases hn : self.frequency = "none"
  · rw [initRepeatTransactions, if_pos hn] at h
    simp at h
  · have hcond : self.growth ≠ some 0 := by
      rw [hg]
      exact fun hc => hgz (Option.some.inj hc)
    simp only [initRepeatTransactions, if_neg hn, hfresh, initRepeatFresh] at h
    split at h
    · simp at h
    · rw [if_pos hcond] at h
      simp only [Except.ok.injEq, Prod.mk.injEq, Sum.inr.injEq] at h
      obtain ⟨-, h2⟩ := h
      subst h2
      have hc := growthApply_consecutive (1 + jsNum self.growth / 100) _ i a prevOcc ha hb
      rw [hg] at hc
      simpa [jsNum] using hc

/-- C4 witness: amount 100, growth 10, three daily occurrences — amounts
100, 110, 121; the second equals the first times `1 + 10/100` by the
compounding theorem. -/
theorem c4_growth_compounding_witness :
    initRepeatTransactions c4node c4bounds = .ok (c4after, .inr c4expected) ∧
    c4expected.map (fun o => o.amount) = [some 100, some 110, some 121] ∧
    c4occB.amount = some (jsNum c4occA.amount * (1 + (10 : ℚ) / 100)) := by
  have hres : initRepeatTransactions c4node c4bounds = .ok (c4after, .inr c4expected) := by
    norm_num +decide [initRepeatTransactions, initRepeatFresh, generateRepeatDates,
      stepDates, stepDatesGo, growthApply, growthGo, toOccur, jsNum, jsDay,
      c4node, c4bounds, c4after, c4stash, c4expected, c4occA, c4occB, c4occC]
  refine ⟨hres, by norm_num [c4expected, c4occA, c4occB, c4occC], ?_⟩
  exact c4_growth_compounding c4node c4bounds 10 c4after c4expected 0 c4occB c4occA
    rfl (by norm_num) rfl hres (by simp [c4expected]) (by simp [c4expected])

/-- C5: for a tree holding a single one-time transaction of 50 on day 5
over bounds day 0 .. day 10, `generatePath` yields the three-point path
(0,0), (5,50), (10,50): zero before day 5, 50 from day 5 through day 10,
with the trailing pad point sitting at `bounds.endDate` because the last
occurrence (day 5) precedes it. -/
theorem c5_generatePath_single_transaction :
    c5result.path =
      [ { value := none, d := some 0, x := 0, y := 0 },
        { value := some (-50), d := some 5, x := 5, y := 50 },
        { value := some (-50), d := some 10, x := 10, y := 50 } ] ∧
    (c5result.path.filter (fun p => decide (p.x < 5))).map (fun p => p.y) = [0] ∧
    (c5result.path.filter (fun p => decide (5 ≤ p.x))).map (fun p => p.y) = [50, 50] ∧
    ((c5result.path.getLast?).getD default).d = c5bounds.endDate ∧
    ((c5result.path.getLast?).getD default).y = 50 := by
  have hpath : c5result.path =
      [ { value := none, d := some 0, x := 0, y := 0 },
        { value := some (-50), d := some 5, x := 5, y := 50 },
        { value := some (-50), d := some 10, x := 10, y := 50 } ] := by
    norm_num +decide [c5result, c5tree, c5bounds, generatePath, gatherTransactions,
      gatherChildren, gatherChild, initRepeatTransactions, occList, toOccur,
      addChildHere, setAmountNoArg, getAmountList, getAmountRun, mkTransaction,
      truthyNum, truthyStr, truthyStrOpt, generatePathGathered, dayGroups,
      dedupFirst, sortKeys, insertKey, keyLE, jsNum, jsDay, Transaction.data,
      Transaction.children]
  refine ⟨hpath, ?_, ?_, ?_, ?_⟩ <;> rw [hpath] <;> norm_num [List.filter, c5bounds]

/-- C7: forking a scenario does create one synthetic leaf named "Scenario
Initial Amount" dated at the scenario start — but its amount is not the
base tree's valuation through the day before the start.  `valueOnDate`
sums every gathered occurrence with no date filter (and the `Scenario`
constructor even passes its arguments to `valueOnDate` swapped), so a base
tree whose only transaction is a one-time 50 on day 20 — after the fork at
day 10 — produces a synthetic leaf worth 50, while every gathered base
occurrence dated on or before day 9 sums to 0. -/
theorem c7_scenario_initial_amount_ignores_dates :
    c7syntheticLeaf.data.description = some "Scenario Initial Amount" ∧
    c7syntheticLeaf.data.startDate = some 10 ∧
    c7syntheticLeaf.data.amount = some 50 ∧
    ((c7baseOccs.filter (fun o => decide (jsDay o.startDate ≤ 9))).map
      (fun o => jsNum o.amount)).sum = 0 ∧
    (50 : ℚ) ≠ 0 := by
  refine ⟨?_, ?_, ?_, ?_, by norm_num⟩ <;>
    norm_num +decide [c7syntheticLeaf, c7scen, c7base, c7baseOccs, gatherOccs,
      addScenario, valueOnDate, gatherTransactions, gatherChildren, gatherChild,
      initRepeatTransactions, occList, toOccur, addChildHere, setAmountNoArg,
      getAmountList, getAmountRun, mkTransaction, truthyNum, truthyStr,
      truthyStrOpt, dayGroups, dedupFirst, sortKeys, insertKey, keyLE, jsNum,
      jsDay, Transaction.data, Transaction.children]

/-- C8 counterexample: cloning a two-node subtree whose root starts on day
15 into a scenario that starts on day 10 yields a node with no children
(the subtree is not deep-copied — `cloneTransaction` copies scalar fields
only) and with `startDate` still day 15 (`setall = true` overwrites only
dates before the scenario start, not unconditionally). -/
theorem c8_clone_counterexample :
    c8orig.children.length = 1 ∧
    c8added.children.length = 0 ∧
    c8added.data.startDate = some 15 ∧
    c8scenarioBase.startDate = 10 ∧
    ¬ ((15 : ℤ) = 10) ∧
    c8added.data.series = "sr" := by
  refine ⟨?_, ?_, ?_, ?_, by norm_num, ?_⟩ <;>
    norm_num +decide [c8orig, c8added, c8scenarioBase, cloneTransactionToScenario,
      cloneTransaction, setStartDatesTop, addChildTransactionHere,
      blobOfTransaction, addChildHere, setAmountNoArg, getAmountList,
      getAmountRun, mkTransaction, truthyNum, truthyStr, truthyStrOpt, jsNum,
      jsDay, Transaction.data, Transaction.children]

theorem getAmountList_concat_leaf (cs : List Transaction) (d : TxData) :
    (getAmountList (cs ++ [Transaction.node d []])).map Prod.fst =
      (getAmountList cs).map Prod.fst ++ [Transaction.node d []] := by
  rw [getAmountList_append]
  simp [getAmountList, getAmountRun_leaf]

/-- C8 as amended: `cloneTransactionToScenario` copies only the single node
(the returned child has no children regardless of the original's subtree),
keeps the original's `series`, divorces the parent (the clone enters the
tree only as the scenario root's appended last child), and sets the
clone's `startDate` to the scenario start only when the original's
`startDate` was before it — a date on or after the scenario start is
kept. -/
theorem c8_clone_shallow_and_dates_conditional (s : ScenarioS) (t : Transaction)
    (fA fB fC : String) (hser : t.data.series ≠ "") :
    ∃ s2 added,
      cloneTransactionToScenario fA fB fC s t = .ok (s2, added) ∧
      added.children = [] ∧
      added.data.series = t.data.series ∧
      added.data.startDate =
        (if jsDay t.data.startDate < s.startDate then some s.startDate
         else t.data.startDate) ∧
      s2.transactions.children.getLast? = some added := by
  obtain ⟨td, tcs⟩ := t
  simp only [Transaction.data] at hser ⊢
  refine ⟨_, _, rfl, ?_⟩
  cases hst : s.transactions with
  | node sd scs =>
    by_cases hlt : jsDay td.startDate < s.startDate <;>
      refine ⟨?_, ?_, ?_, ?_⟩ <;>
        simp [cloneTransactionToScenario, cloneTransaction, mkTransaction,
          blobOfTransaction, addChildTransactionHere, addChildHere,
          setStartDatesTop, setAmountNoArg, Transaction.data,
          Transaction.children, List.isEmpty_iff, getAmountList_concat_leaf,
          List.getLast?_concat, truthyStr, hser, hlt]

/-- C8 witness: cloning the concrete two-node subtree into the concrete
scenario — the appended node is childless, keeps series "sr", and keeps its
day-15 start date (which is not before the scenario's day 10). -/
theorem c8_clone_shallow_and_dates_conditional_witness :
    ∃ s2 added,
      cloneTransactionToScenario "f1" "f2" "f3" c8scenarioBase c8orig = .ok (s2, added) ∧
      added.children = [] ∧
      added.data.series = c8orig.data.series ∧
      added.data.startDate =
        (if jsDay c8orig.data.startDate < c8scenarioBase.startDate
         then some c8scenarioBase.startDate else c8orig.data.startDate) ∧
      s2.transactions.children.getLast? = some added :=
  c8_clone_shallow_and_dates_conditional c8scenarioBase c8orig "f1" "f2" "f3"
    (by norm_num +decide [c8orig, addChildHere, setAmountNoArg, mkTransaction,
      truthyStr, truthyNum, truthyStrOpt, getAmountList, getAmountRun,
      Transaction.data, Transaction.children, jsNum])
